import Mathlib

/-!
# Verification of the email triage-and-drafting pipeline

A shallow embedding of the core of the `email_agent` package: the dynamic
JSON values that the completion-port responses are parsed into, the Python
truthiness/coercion semantics the code relies on, the intake filter
(`ai.is_auto_or_spam`), the router (`router.RouterAgent._parse_response`),
the expert strategies (`experts.py`), the grounding step of
`ai.analyze_and_draft`, the reviewer (`review_ai.review_draft`), the
watcher state machine (`listener.EmailListener`), and the event reporter
(`reporter.EmailReporter._generate_report`).

Conventions of the embedding:
* Python's dynamically typed JSON values (`json.loads` output) are the
  inductive `Json`; numbers are rationals (every numeric literal the code
  manipulates is exact in `ℚ`).
* A Python function that can raise an exception not caught inside the
  modelled region is embedded as `Except PyErr _`; a raised exception that
  the modelled code catches is folded into the corresponding fallback.
* `datetime` values are carried as their source ISO strings; time-zone
  normalisation mutates only the `tzinfo` of a datetime, which this
  abstraction does not carry (no claim depends on it).
-/

namespace EmailAgent

/-- Dynamic JSON values, as produced by Python's `json.loads`.
Objects keep their field list in source order; lookups take the last
binding of a key, matching `dict` construction from duplicate keys. -/
inductive Json where
  | null : Json
  | bool (b : Bool) : Json
  | num (q : ℚ) : Json
  | str (s : String) : Json
  | arr (elems : List Json) : Json
  | obj (fields : List (String × Json)) : Json

instance : Inhabited Json := ⟨Json.null⟩

/-- Python exception classes that the modelled code can raise or catch. -/
inductive PyErr where
  | typeError
  | valueError
  | keyError
  | attributeError
  | jsonDecodeError
  | runtimeError
  deriving Repr, DecidableEq

/-- Dictionary lookup, `d.get(k)`: the last binding of `k` wins,
matching the `dict` that `json.loads` builds from a field list. -/
def jsonGet (fields : List (String × Json)) (k : String) : Option Json :=
  (fields.reverse.find? (fun p => p.1 == k)).map (fun p => p.2)

/-- `d.get(k, default)`. -/
def pyGet (fields : List (String × Json)) (k : String) (default : Json) : Json :=
  (jsonGet fields k).getD default

/-- `d[k] = v`: for lookup purposes, drop the old bindings of `k` and
append the new one. -/
def jsonSet (fields : List (String × Json)) (k : String) (v : Json) :
    List (String × Json) :=
  (fields.filter (fun p => !(p.1 == k))) ++ [(k, v)]

/-- Python truthiness, `bool(x)`, for JSON values. -/
def pyTruthy : Json → Bool
  | .null => false
  | .bool b => b
  | .num q => decide (q ≠ 0)
  | .str s => !(s == "")
  | .arr l => !l.isEmpty
  | .obj f => !f.isEmpty

/-- Truthiness of `d.get(k)` when the key may be missing (`None` is falsy). -/
def pyTruthyOpt : Option Json → Bool
  | none => false
  | some j => pyTruthy j

/-- `a or b` on JSON values. -/
def pyOr (a b : Json) : Json := if pyTruthy a then a else b

/-- Python `str.lower()` (character-wise). -/
def strToLower (s : String) : String :=
  String.mk (s.toList.map Char.toLower)

/-- Whitespace as recognised by Python's `str.strip()` and the numeric
constructors. -/
def isPySpace (c : Char) : Bool :=
  c == ' ' || c == '\t' || c == '\n' || c == '\r' ||
  c == Char.ofNat 11 || c == Char.ofNat 12

/-- Strip leading and trailing whitespace from a character list. -/
def stripChars (cs : List Char) : List Char :=
  ((cs.dropWhile isPySpace).reverse.dropWhile isPySpace).reverse

/-- Python `str.strip()`. -/
def pyStrip (s : String) : String := String.mk (stripChars s.toList)

/-- Numeric value of a digit list (most significant first). -/
def digitsToNat (cs : List Char) : Nat :=
  cs.foldl (fun a c => a * 10 + (c.toNat - 48)) 0

/-- Split a leading sign character. -/
def splitSign : List Char → Int × List Char
  | '-' :: cs => (-1, cs)
  | '+' :: cs => (1, cs)
  | cs => (1, cs)

def allDigits (cs : List Char) : Bool := cs.all Char.isDigit

/-- Value of a decimal literal with integer part and fraction digit lists. -/
def decimalToRat (ip fp : List Char) : ℚ :=
  (digitsToNat ip : ℚ) + (digitsToNat fp : ℚ) / ((10 : ℚ) ^ fp.length)

/-- Exponent suffix of a float literal: optional sign, then digits. -/
def parseExpPart (cs : List Char) : Option Int :=
  let (sg, ds) := splitSign cs
  if !ds.isEmpty && allDigits ds then some (sg * (digitsToNat ds : Int)) else none

/-- Mantissa of a float literal: digits with an optional decimal point. -/
def parseMantissa (cs : List Char) : Option ℚ :=
  match cs.span (fun c => !(c == '.')) with
  | (ip, []) =>
      if !ip.isEmpty && allDigits ip then some ((digitsToNat ip : ℚ)) else none
  | (ip, _dot :: fp) =>
      if allDigits ip && allDigits fp && (!ip.isEmpty || !fp.isEmpty) then
        some (decimalToRat ip fp)
      else none

/-- Model of Python `float(s)` on strings: optional surrounding whitespace,
optional sign, decimal mantissa, optional exponent.  (The special forms
`inf`/`nan` fall outside the rational model and are treated as parse
failures; no modelled claim depends on them.) -/
def pyFloatOfString (s : String) : Option ℚ :=
  let cs := stripChars s.toList
  let (sg, cs1) := splitSign cs
  match cs1.span (fun c => !(c == 'e' || c == 'E')) with
  | (mant, []) => (parseMantissa mant).map (fun q => (sg : ℚ) * q)
  | (mant, _e :: expPart) =>
      match parseMantissa mant, parseExpPart expPart with
      | some q, some ex => some ((sg : ℚ) * q * (10 : ℚ) ^ ex)
      | _, _ => none

/-- Python `float(x)`: numbers pass through, booleans coerce, strings are
parsed (`ValueError` on failure), everything else is a `TypeError`. -/
def pyFloat : Json → Except PyErr ℚ
  | .num q => .ok q
  | .bool b => .ok (if b then 1 else 0)
  | .str s =>
      match pyFloatOfString s with
      | some q => .ok q
      | none => .error .valueError
  | _ => .error .typeError

/-- Truncation toward zero, as Python `int()` applied to a float. -/
def ratTrunc (q : ℚ) : Int := if 0 ≤ q then ⌊q⌋ else ⌈q⌉

/-- Python `int(x)`: numbers truncate toward zero, booleans coerce,
strings must be (signed) digit strings, everything else is a `TypeError`. -/
def pyInt : Json → Except PyErr Int
  | .num q => .ok (ratTrunc q)
  | .bool b => .ok (if b then 1 else 0)
  | .str s =>
      let (sg, ds) := splitSign (stripChars s.toList)
      if !ds.isEmpty && allDigits ds then .ok (sg * (digitsToNat ds : Int))
      else .error .valueError
  | _ => .error .typeError

/-- Python `list(x)`: lists pass through, strings explode into characters,
dict iteration yields the keys, everything else is a `TypeError`. -/
def pyList : Json → Except PyErr (List Json)
  | .arr l => .ok l
  | .str s => .ok (s.toList.map (fun c => Json.str (String.mk [c])))
  | .obj f => .ok (f.map (fun p => Json.str p.1))
  | _ => .error .typeError

/-- Python `x + suffix` where `suffix` is a string: succeeds exactly when
`x` is a string, otherwise raises `TypeError`. -/
def pyAddStr (x : Json) (suffix : String) : Except PyErr Json :=
  match x with
  | .str s => .ok (.str (s ++ suffix))
  | _ => .error .typeError

/-- Expect a dict (attribute access `x.get` raises `AttributeError` on
anything else). -/
def expectObj (x : Json) : Except PyErr (List (String × Json)) :=
  match x with
  | .obj f => .ok f
  | _ => .error .attributeError

/-- Expect a string (a non-string argument to a parser such as
`datetime.fromisoformat` raises `TypeError`). -/
def expectStr (x : Json) : Except PyErr String :=
  match x with
  | .str s => .ok s
  | _ => .error .typeError

/-- Subscription `d[k]` on a dict: `KeyError` when the key is missing. -/
def pyItem (fields : List (String × Json)) (k : String) : Except PyErr Json :=
  match jsonGet fields k with
  | some v => .ok v
  | none => .error .keyError

/-! ### A model of `json.loads`

An executable recursive-descent JSON parser.  Recursion is bounded by a
fuel argument; `jsonLoads` supplies one more unit of fuel than the input
has characters, which bounds the nesting depth (every nested value sits
behind at least one consumed character).  Leading-zero strictness and the
non-standard `NaN`/`Infinity` literals of Python's decoder are not
modelled; no claim depends on them. -/

def jsonWs (c : Char) : Bool :=
  c == ' ' || c == '\t' || c == '\n' || c == '\r'

def skipWs (cs : List Char) : List Char := cs.dropWhile jsonWs

def hexVal (c : Char) : Option Nat :=
  if c.isDigit then some (c.toNat - 48)
  else if 'a' ≤ c && c ≤ 'f' then some (c.toNat - 87)
  else if 'A' ≤ c && c ≤ 'F' then some (c.toNat - 55)
  else none

/-- The single-character escapes of a JSON string, as a lookup table. -/
def escPairs : List (Char × Char) :=
  [('"', '"'), ('\\', '\\'), ('/', '/'),
   ('b', Char.ofNat 8), ('f', Char.ofNat 12),
   ('n', '\n'), ('r', '\r'), ('t', '\t')]

def escSimple (c : Char) : Option Char :=
  (escPairs.find? (fun p => p.1 == c)).map (fun p => p.2)

/-- Body of a JSON string literal (after the opening quote), with the
standard escapes.  Returns the decoded string and the remaining input. -/
def parseStrAux : List Char → List Char → Option (String × List Char)
  | acc, '"' :: rest => some (String.mk acc.reverse, rest)
  | acc, '\\' :: 'u' :: h1 :: h2 :: h3 :: h4 :: rest =>
      match hexVal h1, hexVal h2, hexVal h3, hexVal h4 with
      | some a, some b, some c, some d =>
          parseStrAux (Char.ofNat (((a * 16 + b) * 16 + c) * 16 + d) :: acc) rest
      | _, _, _, _ => none
  | acc, '\\' :: e :: rest =>
      match escSimple e with
      | some c => parseStrAux (c :: acc) rest
      | none => none
  | _, '\\' :: _ => none
  | _, [] => none
  | acc, c :: rest => parseStrAux (c :: acc) rest

/-- A JSON number literal: optional minus, digits, optional fraction,
optional exponent. -/
def parseNum (cs : List Char) : Option (Json × List Char) :=
  let neg : Bool := cs.head? == some '-'
  let cs1 := if neg then cs.drop 1 else cs
  let (ip, cs2) := cs1.span Char.isDigit
  if ip.isEmpty then none else
  let hasDot : Bool := match cs2 with
    | '.' :: _ => true
    | _ => false
  let (fp, cs3) := match cs2 with
    | '.' :: r => r.span Char.isDigit
    | _ => ([], cs2)
  if hasDot && fp.isEmpty then none else
  let base : ℚ := decimalToRat ip fp
  let signed : ℚ := if neg then -base else base
  match cs3 with
  | e :: r =>
      if e == 'e' || e == 'E' then
        let (sg, r1) := splitSign r
        let (ds, r2) := r1.span Char.isDigit
        if ds.isEmpty then none
        else some (.num (signed * (10 : ℚ) ^ (sg * (digitsToNat ds : Int))), r2)
      else some (.num signed, cs3)
  | [] => some (.num signed, cs3)

mutual

/-- A JSON value (fuel-bounded). -/
def parseVal : Nat → List Char → Option (Json × List Char)
  | 0, _ => none
  | f + 1, cs =>
    match skipWs cs with
    | 'n' :: 'u' :: 'l' :: 'l' :: rest => some (.null, rest)
    | 't' :: 'r' :: 'u' :: 'e' :: rest => some (.bool true, rest)
    | 'f' :: 'a' :: 'l' :: 's' :: 'e' :: rest => some (.bool false, rest)
    | '"' :: rest =>
        (parseStrAux [] rest).map (fun p => (.str p.1, p.2))
    | '[' :: rest =>
        (match skipWs rest with
         | ']' :: r2 => some (.arr [], r2)
         | body => (parseItems f body).map (fun p => (.arr p.1, p.2)))
    | '{' :: rest =>
        (match skipWs rest with
         | '}' :: r2 => some (.obj [], r2)
         | body => (parseFields f body).map (fun p => (.obj p.1, p.2)))
    | other => parseNum other

/-- Comma-separated values of a non-empty JSON array, up to `]`. -/
def parseItems : Nat → List Char → Option (List Json × List Char)
  | 0, _ => none
  | f + 1, cs =>
    match parseVal f cs with
    | none => none
    | some (v, r) =>
      match skipWs r with
      | ',' :: r2 =>
          (parseItems f r2).map (fun p => (v :: p.1, p.2))
      | ']' :: r2 => some ([v], r2)
      | _ => none

/-- Comma-separated members of a non-empty JSON object, up to `}`. -/
def parseFields : Nat → List Char → Option (List (String × Json) × List Char)
  | 0, _ => none
  | f + 1, cs =>
    match skipWs cs with
    | '"' :: r =>
      (match parseStrAux [] r with
       | none => none
       | some (k, r1) =>
         match skipWs r1 with
         | ':' :: r2 =>
           (match parseVal f r2 with
            | none => none
            | some (v, r3) =>
              match skipWs r3 with
              | ',' :: r4 =>
                  (parseFields f r4).map (fun p => ((k, v) :: p.1, p.2))
              | '}' :: r4 => some ([(k, v)], r4)
              | _ => none)
         | _ => none)
    | _ => none

end

/-- Model of `json.loads`: parse one value, then require only whitespace
after it. -/
def jsonLoads (s : String) : Option Json :=
  match parseVal (s.length + 1) s.toList with
  | some (v, rest) => if (skipWs rest).isEmpty then some v else none
  | none => none

/-! ### Regex-based JSON extraction

The router and the non-General experts all run
`re.search(r'\x7b[\s\S]*\x7d', response_text)` before `json.loads`: the
(greedy) match runs from the first `\x7b` of the text to the last `\x7d`,
and exists exactly when some `\x7b` precedes some `\x7d`. -/

/-- Substring of `s` from the first brace-open to the last brace-close,
when the former precedes the latter — the unique match of the greedy
regex above. -/
def extractBraces (s : String) : Option String :=
  let cs := s.toList
  match cs.findIdx? (fun c => c == '{'), cs.reverse.findIdx? (fun c => c == '}') with
  | some i, some rj =>
      let j := cs.length - 1 - rj
      if i < j then some (String.mk ((cs.drop i).take (j - i + 1))) else none
  | _, _ => none

/-- Outcome of the shared two-step parse (`re.search` then `json.loads`)
applied to a completion response text. -/
inductive ParseOutcome where
  | noMatch
  | decodeError
  | ok (fields : List (String × Json))

/-- The extraction-and-decode step shared by the router and the experts.
A successful `json.loads` of the extracted `\x7b...\x7d` substring is
necessarily a JSON object, so its fields are returned directly. -/
def parseJsonObject (text : String) : ParseOutcome :=
  match extractBraces text with
  | none => .noMatch
  | some sub =>
      match jsonLoads sub with
      | some (Json.obj fields) => .ok fields
      | some _ => .decodeError
      | none => .decodeError

/-! ### Data model (`models.py`) -/

/-- `models.EmailContent`.  The `date` field (a `datetime`) is carried
abstractly as an optional string. -/
structure EmailContent where
  subject : String
  from_address : String
  to_addresses : List String
  cc_addresses : List String := []
  date : Option String := none
  plain_text : String := ""
  html : Option String := none
  message_id : Option String := none
  references : Option String := none

/-- `models.MeetingDetails`.  The constructing call sites pass through
whatever JSON values the completion response supplied, so the fields are
dynamically typed; `start_datetime` carries the source ISO string of the
parsed datetime (or `none` for Python `None`). -/
structure MeetingDetails where
  title : Json
  start_datetime : Option String
  duration_minutes : Json
  timezone : Json
  location : Json := .null
  attendees : List Json := []
  description : Json := .null

/-- `models.DraftDecision`. -/
structure DraftDecision where
  reply_subject : Json
  reply_body_text : Json
  reply_body_html : Json
  needs_meeting : Bool
  meeting : Option MeetingDetails

/-- `models.ReviewDecision`. -/
structure ReviewDecision where
  approved : Bool
  suggested_changes : Json
  final_subject : Json
  final_body_text : Json
  final_body_html : Json
  final_needs_meeting : Bool
  final_meeting : Option MeetingDetails := none

/-! ### Intake filter (`ai.is_auto_or_spam`) -/

/-- `needle.isPrefixOf`-based substring containment on character lists:
the model of Python's `needle in hay`. -/
def listContainsSub (needle : List Char) : List Char → Bool
  | [] => needle.isEmpty
  | c :: rest => needle.isPrefixOf (c :: rest) || listContainsSub needle rest

/-- Python `needle in hay` on strings. -/
def strContains (hay needle : String) : Bool :=
  listContainsSub needle.toList hay.toList

/-- `ai.WHITELIST`: the trusted-sender allow-list (lower-case). -/
def WHITELIST : List String := ["@gmail.com", "@outlook.com"]

def spam_words : List String :=
  ["unsubscribe", "offer", "deal", "discount", "newsletter", "promo", "ad:"]

def sys_words : List String :=
  ["password reset", "verification code", "invoice", "receipt",
   "auto-reply", "out of office"]

/-- `ai.is_auto_or_spam`: the Stage-1 rule cascade.  The body preview is
bound exactly as in the source and never consulted by any rule. -/
def is_auto_or_spam (email : EmailContent) : Bool :=
  let sender := strToLower email.from_address
  let subject := strToLower email.subject
  let _body_preview := strToLower email.plain_text
  if WHITELIST.any (fun allowed => strContains sender allowed) then
    false
  else if ["no-reply", "noreply", "do-not-reply"].any
      (fun keyword => strContains sender keyword) then
    true
  else if ["mailchimp", "hubspot", "substack", "medium.com", "sendgrid"].any
      (fun domain => strContains sender domain) then
    true
  else if (spam_words ++ sys_words).any (fun word => strContains subject word) then
    if strContains sender "@gmail.com" || strContains sender "@outlook.com" ||
        strContains sender "@yahoo.com" then
      false
    else
      true
  else
    false

/-! ### Router (`router.py`) -/

/-- `router.RoutingDecision`.  `agent_type`, `reasoning` carry whatever
JSON value the response supplied; `confidence` is the result of `float()`
and hence numeric. -/
structure RoutingDecision where
  agent_type : Json
  confidence : ℚ
  reasoning : Json
  requires_information : Bool

/-- `RouterAgent._parse_response`.  The `except` clause catches only
`json.JSONDecodeError` and `ValueError`; a `TypeError` raised by
`float()` on a non-numeric, non-string confidence value propagates.
The interpolated exception message in the fallback's reasoning is
abstracted to the fixed text `"Parse error"`. -/
def RouterAgent.parse_response (text : String) : Except PyErr RoutingDecision :=
  match parseJsonObject text with
  | .noMatch =>
      .ok ⟨.str "general", 1/2, .str "Could not parse response", false⟩
  | .decodeError =>
      .ok ⟨.str "general", 1/2, .str "Parse error", false⟩
  | .ok fields =>
      match pyFloat (pyGet fields "confidence" (.num (1/2))) with
      | .error .valueError =>
          .ok ⟨.str "general", 1/2, .str "Parse error", false⟩
      | .error e => .error e
      | .ok c =>
          .ok ⟨pyGet fields "agent_type" (.str "general"), c,
               pyGet fields "reasoning" (.str ""),
               pyTruthy (pyGet fields "requires_information" (.bool false))⟩

/-! ### Expert strategies (`experts.py`) -/

/-- Shape check performed by the external `datetime` parsers
(`datetime.fromisoformat` / `dateutil.parser.isoparse`): an ISO-like
date prefix.  No claim depends on the exact accepted date language. -/
def isoLikeDate (s : String) : Bool :=
  match s.toList with
  | y1 :: y2 :: y3 :: y4 :: '-' :: m1 :: m2 :: '-' :: d1 :: d2 :: _rest =>
      [y1, y2, y3, y4, m1, m2, d1, d2].all Char.isDigit
  | _ => false

/-- The meeting constructed inside `SchedulingAgent._parse_response`:
`m_data["start_time"]` raises `KeyError` when absent, the datetime parse
raises on a non-string or ill-formed value; every error is caught by the
surrounding `except Exception`. -/
def buildSchedulingMeeting (mData : Json) : Except PyErr MeetingDetails :=
  match expectObj mData with
  | .error e => .error e
  | .ok mf =>
    match pyItem mf "start_time" with
    | .error e => .error e
    | .ok sjson =>
      match expectStr sjson with
      | .error e => .error e
      | .ok s =>
        if isoLikeDate s then
          .ok { title := pyGet mf "title" (.str "Meeting"),
                start_datetime := some s,
                duration_minutes := pyGet mf "duration_minutes" (.num 30),
                timezone := pyGet mf "timezone" (.str "UTC"),
                location := pyGet mf "location" .null,
                attendees := [],
                description := pyGet mf "description" .null }
        else
          .error .valueError

/-- The fixed reply of `SchedulingAgent._parse_response`'s
`except Exception` branch. -/
def schedulingErrorFallback (email : EmailContent) : DraftDecision :=
  { reply_subject := .str ("Re: " ++ email.subject),
    reply_body_text :=
      .str "Thank you for your email regarding scheduling. Let me check my availability.",
    reply_body_html := .null,
    needs_meeting := false,
    meeting := none }

/-- `SchedulingAgent._parse_response`: total — every exception raised
while decoding or while building the meeting is caught and mapped to a
fixed fallback reply. -/
def SchedulingAgent.parse_response (text : String) (email : EmailContent) :
    DraftDecision :=
  match parseJsonObject text with
  | .noMatch =>
      { reply_subject := .str ("Re: " ++ email.subject),
        reply_body_text :=
          .str "Thank you for your email. Let me check my availability and get back to you with some time options.",
        reply_body_html := .null,
        needs_meeting := false,
        meeting := none }
  | .decodeError => schedulingErrorFallback email
  | .ok fields =>
      let build : Except PyErr (Option MeetingDetails) :=
        if pyTruthyOpt (jsonGet fields "needs_meeting") &&
            pyTruthyOpt (jsonGet fields "meeting") then
          (buildSchedulingMeeting ((jsonGet fields "meeting").getD .null)).map some
        else
          .ok none
      match build with
      | .error _ => schedulingErrorFallback email
      | .ok meeting =>
          { reply_subject := pyGet fields "subject" (.str ("Re: " ++ email.subject)),
            reply_body_text := pyGet fields "body_text" (.str ""),
            reply_body_html := pyGet fields "body_html" .null,
            needs_meeting := pyTruthy (pyGet fields "needs_meeting" (.bool false)),
            meeting := meeting }

/-- `BusinessAgent._parse_response`: never populates a meeting. -/
def BusinessAgent.parse_response (text : String) (email : EmailContent) :
    DraftDecision :=
  match parseJsonObject text with
  | .noMatch =>
      { reply_subject := .str ("Re: " ++ email.subject),
        reply_body_text :=
          .str "Thank you for reaching out. We appreciate your inquiry and will follow up soon.",
        reply_body_html := .null,
        needs_meeting := false,
        meeting := none }
  | .decodeError =>
      { reply_subject := .str ("Re: " ++ email.subject),
        reply_body_text :=
          .str "Thank you for your business inquiry. We will review and respond promptly.",
        reply_body_html := .null,
        needs_meeting := false,
        meeting := none }
  | .ok fields =>
      { reply_subject := pyGet fields "subject" (.str ("Re: " ++ email.subject)),
        reply_body_text := pyGet fields "body_text" (.str ""),
        reply_body_html := pyGet fields "body_html" .null,
        needs_meeting := pyTruthy (pyGet fields "needs_meeting" (.bool false)),
        meeting := none }

/-- `InformationAgent._parse_response`: never proposes a meeting. -/
def InformationAgent.parse_response (text : String) (email : EmailContent) :
    DraftDecision :=
  match parseJsonObject text with
  | .noMatch =>
      { reply_subject := .str ("Re: " ++ email.subject),
        reply_body_text :=
          .str "Thank you for your question. Let me research this and provide you with accurate information.",
        reply_body_html := .null,
        needs_meeting := false,
        meeting := none }
  | .decodeError =>
      { reply_subject := .str ("Re: " ++ email.subject),
        reply_body_text :=
          .str "Thank you for your question. I\x27m researching this and will provide a detailed response.",
        reply_body_html := .null,
        needs_meeting := false,
        meeting := none }
  | .ok fields =>
      { reply_subject := pyGet fields "subject" (.str ("Re: " ++ email.subject)),
        reply_body_text := pyGet fields "body_text" (.str ""),
        reply_body_html := pyGet fields "body_html" .null,
        needs_meeting := false,
        meeting := none }

/-- `GeneralAgent.draft_response` after the completion call: no parsing —
the raw returned text becomes the body verbatim. -/
def GeneralAgent.draft_response (content : String) (email : EmailContent) :
    DraftDecision :=
  { reply_subject := .str ("Re: " ++ email.subject),
    reply_body_text := .str content,
    reply_body_html := .null,
    needs_meeting := false,
    meeting := none }

/-! ### Grounding validation (`ai.py`) -/

/-- `ai.FactualGroundingResult`.  The constructor passes through whatever
JSON values the validator response supplied, so the fields are dynamic. -/
structure FactualGroundingResult where
  is_grounded : Json
  confidence_score : Json
  missing_facts : Json
  potential_hallucinations : Json
  validated_facts : Json

/-- The parse step of
`FactualGroundingValidator.validate_response_grounding`: only
`json.JSONDecodeError` is caught (yielding the conservative fallback); a
non-object top level raises `AttributeError`, which propagates to the
caller's `except Exception`. -/
def validate_grounding_parse (content : String) :
    Except PyErr FactualGroundingResult :=
  match jsonLoads content with
  | some (Json.obj f) =>
      .ok { is_grounded := pyGet f "is_grounded" (.bool false),
            confidence_score := pyGet f "confidence_score" (.num 0),
            missing_facts := pyGet f "missing_facts" (.arr []),
            potential_hallucinations := pyGet f "potential_hallucinations" (.arr []),
            validated_facts := pyGet f "validated_facts" (.arr []) }
  | some _ => .error .attributeError
  | none =>
      .ok { is_grounded := .bool false,
            confidence_score := .num 0,
            missing_facts := .arr [.str "JSON parsing error"],
            potential_hallucinations := .arr [.str "Unable to validate"],
            validated_facts := .arr [] }

/-- The disclaimer appended to the plain-text body. -/
def disclaimerText : String :=
  "\n\nNote: Please provide any specific details (addresses, contact information, etc.) that you\x27d like me to include in our response."

/-- The disclaimer appended to the HTML body. -/
def disclaimerHtml : String :=
  "<p><em>Note: Please provide any specific details (addresses, contact information, etc.) that you\x27d like me to include in our response.</em></p>"

/-- The conservative-modification block of `ai.analyze_and_draft` (lines
guarded by `if not validation_result.is_grounded`): the disclaimer is
appended only when `potential_hallucinations` is truthy, and to the HTML
body only when that body is itself truthy.  The second component records
an exception raised mid-block (a non-string body), after which the data
mutated so far is kept — the surrounding `except Exception` swallows it. -/
def applyGroundingMut (data : List (String × Json))
    (vr : FactualGroundingResult) : List (String × Json) × Option PyErr :=
  if pyTruthy vr.is_grounded then (data, none)
  else if pyTruthy vr.potential_hallucinations then
    match pyAddStr (pyGet data "reply_body_text" (.str "")) disclaimerText with
    | .error e => (data, some e)
    | .ok newText =>
      let data1 := jsonSet data "reply_body_text" newText
      if pyTruthy (pyGet data1 "reply_body_html" .null) then
        match pyAddStr (pyGet data1 "reply_body_html" .null) disclaimerHtml with
        | .error e => (data1, some e)
        | .ok newHtml => (jsonSet data1 "reply_body_html" newHtml, none)
      else (data1, none)
  else (data, none)

/-- The whole `try`/`except` validation region of `ai.analyze_and_draft`:
a failure of the validator itself, or of the modification block, is
swallowed and processing continues with the data produced so far. -/
def groundingPhase (data : List (String × Json))
    (validationOutcome : Except PyErr FactualGroundingResult) :
    List (String × Json) :=
  match validationOutcome with
  | .error _ => data
  | .ok vr => (applyGroundingMut data vr).1

/-- The meeting normalisation shared verbatim by `ai.analyze_and_draft`
and `review_ai.review_draft` (they differ only in their defaults).
`m.get` on a non-dict raises `AttributeError`; `isoparse`, `int()` and
`list()` raise on ill-typed values; none of these raises is caught. -/
def buildMeetingJson (m : Json) (fallbackTitle : String) (defaultTz : String)
    (defaultDur : Int) (fallbackAttendee : String) :
    Except PyErr MeetingDetails :=
  match expectObj m with
  | .error e => .error e
  | .ok mf =>
    let dtStep : Except PyErr (Option String) :=
      if pyTruthyOpt (jsonGet mf "start_datetime") then
        match expectStr ((jsonGet mf "start_datetime").getD .null) with
        | .error e => .error e
        | .ok s => if isoLikeDate s then .ok (some s) else .error .valueError
      else .ok none
    match dtStep with
    | .error e => .error e
    | .ok dt =>
      let tzName := pyOr (pyGet mf "timezone" .null) (.str defaultTz)
      match pyInt (pyOr (pyGet mf "duration_minutes" .null) (.num (defaultDur : ℚ))) with
      | .error e => .error e
      | .ok dur =>
        match pyList (pyOr (pyGet mf "attendees" .null) (.arr [.str fallbackAttendee])) with
        | .error e => .error e
        | .ok att =>
          .ok { title := pyOr (pyGet mf "title" .null) (.str fallbackTitle),
                start_datetime := dt,
                duration_minutes := .num (dur : ℚ),
                timezone := tzName,
                location := pyGet mf "location" .null,
                attendees := att,
                description := pyGet mf "description" .null }

/-- `ai.analyze_and_draft` from the completion response onward.  The
validator's own completion call and parse are summarised by
`validationOutcome` (see `validate_grounding_parse`).  An empty response
raises `RuntimeError`; `json.loads` failure and every exception of the
meeting normalisation propagate to the caller. -/
def analyze_and_draft (content : String)
    (validationOutcome : Except PyErr FactualGroundingResult)
    (enable_factual_validation : Bool) (email : EmailContent)
    (default_timezone : String) (default_meeting_duration_minutes : Int) :
    Except PyErr DraftDecision :=
  if content == "" then .error .runtimeError
  else
    match jsonLoads content with
    | none => .error .jsonDecodeError
    | some j =>
      match expectObj j with
      | .error e => .error e
      | .ok data0 =>
        let data := if enable_factual_validation then
            groundingPhase data0 validationOutcome
          else data0
        let meetingStep : Except PyErr (Option MeetingDetails) :=
          if pyTruthyOpt (jsonGet data "needs_meeting") &&
              pyTruthyOpt (jsonGet data "meeting") then
            match buildMeetingJson ((jsonGet data "meeting").getD .null)
                email.subject default_timezone default_meeting_duration_minutes
                email.from_address with
            | .error e => .error e
            | .ok m => .ok (some m)
          else .ok none
        match meetingStep with
        | .error e => .error e
        | .ok meeting =>
          .ok { reply_subject := pyOr (pyGet data "reply_subject" .null)
                  (.str ("Re: " ++ email.subject)),
                reply_body_text := pyOr (pyGet data "reply_body_text" .null)
                  (.str ""),
                reply_body_html := pyGet data "reply_body_html" .null,
                needs_meeting := pyTruthyOpt (jsonGet data "needs_meeting"),
                meeting := meeting }

/-! ### Reviewer (`review_ai.py`) -/

/-- `review_ai.review_draft` from the completion response onward: an
empty response raises `RuntimeError`; the meeting normalisation is
`buildMeetingJson` with the reviewer's fixed defaults; falsy final
subject/body fall back to the expert draft's values. -/
def review_draft (content : String) (draft : DraftDecision)
    (email : EmailContent) : Except PyErr ReviewDecision :=
  if content == "" then .error .runtimeError
  else
    match jsonLoads content with
    | none => .error .jsonDecodeError
    | some j =>
      match expectObj j with
      | .error e => .error e
      | .ok data =>
        let meetingStep : Except PyErr (Option MeetingDetails) :=
          if pyTruthyOpt (jsonGet data "final_needs_meeting") &&
              pyTruthyOpt (jsonGet data "final_meeting") then
            match buildMeetingJson ((jsonGet data "final_meeting").getD .null)
                email.subject "UTC" 30 email.from_address with
            | .error e => .error e
            | .ok m => .ok (some m)
          else .ok none
        match meetingStep with
        | .error e => .error e
        | .ok meeting =>
          .ok { approved := pyTruthyOpt (jsonGet data "approved"),
                suggested_changes := pyGet data "suggested_changes" .null,
                final_subject := pyOr (pyGet data "final_subject" .null)
                  draft.reply_subject,
                final_body_text := pyOr (pyGet data "final_body_text" .null)
                  draft.reply_body_text,
                final_body_html := pyGet data "final_body_html" .null,
                final_needs_meeting :=
                  pyTruthyOpt (jsonGet data "final_needs_meeting"),
                final_meeting := meeting }

/-! ### Watcher state machine (`listener.py`)

The UID-tracking state of `EmailListener`: `max_uid` (the watermark) and
`processed_uids`.  The Python `set` is modelled as the list of added
elements — membership and insertion are the only operations the code
uses.  The trace of a run records, in order, exactly the UIDs for which
`_process_email_by_uid` was invoked. -/

structure ListenerState where
  maxUid : Nat
  processedUids : List Nat

/-- One pass of the `for uid in email_uids` loop of
`EmailListener._listen_idle`: a UID already in `processed_uids` is
skipped; otherwise it is added, the pipeline runs on it (recorded in the
trace), and the watermark advances when the UID exceeds it. -/
def pollIteration : ListenerState → List Nat → ListenerState × List Nat
  | s, [] => (s, [])
  | s, uid :: rest =>
    if uid ∈ s.processedUids then pollIteration s rest
    else
      let s1 : ListenerState :=
        { maxUid := if s.maxUid < uid then uid else s.maxUid,
          processedUids := uid :: s.processedUids }
      let r := pollIteration s1 rest
      (r.1, uid :: r.2)

/-- `EmailListener._connect_imap` (the reconnect path) reassigns only the
transport handle; it touches neither `processed_uids` nor `max_uid`. -/
def reconnectTracking (s : ListenerState) : ListenerState := s

/-- Runs of the `_listen_idle` loop with *arbitrary* discovery batches
(no assumption on what the server returns for the UID search — this
covers re-discovery of old UIDs after a reconnect).  `listenerRun s tr s1`
holds when the loop can go from state `s` to state `s1` while invoking the
pipeline exactly on the UIDs of `tr`, in order. -/
inductive listenerRun : ListenerState → List Nat → ListenerState → Prop where
  | done (s : ListenerState) : listenerRun s [] s
  | poll (s : ListenerState) (batch : List Nat) {tr : List Nat}
      {s1 : ListenerState} (h : listenerRun (pollIteration s batch).1 tr s1) :
      listenerRun s ((pollIteration s batch).2 ++ tr) s1
  | reconnect (s : ListenerState) {tr : List Nat} {s1 : ListenerState}
      (h : listenerRun (reconnectTracking s) tr s1) : listenerRun s tr s1

/-- Runs of the `_listen_idle` loop in which every discovery batch honours
the issued search criterion `UID max_uid+1:* UNSEEN` — i.e. the external
mail transport returns only identifiers strictly above the current
watermark. -/
inductive anchoredRun : ListenerState → List Nat → ListenerState → Prop where
  | done (s : ListenerState) : anchoredRun s [] s
  | poll (s : ListenerState) (batch : List Nat)
      (hbatch : ∀ u ∈ batch, s.maxUid < u) {tr : List Nat}
      {s1 : ListenerState} (h : anchoredRun (pollIteration s batch).1 tr s1) :
      anchoredRun s ((pollIteration s batch).2 ++ tr) s1
  | reconnect (s : ListenerState) {tr : List Nat} {s1 : ListenerState}
      (h : anchoredRun (reconnectTracking s) tr s1) : anchoredRun s tr s1

/-- The startup watermark set in `EmailListener.start`: the last UID of
the `SEARCH ALL` result (IMAP returns UIDs in ascending order, so this is
the highest existing UID), or `0` for an empty mailbox. -/
def startupWatermark (mailboxUids : List Nat) : Nat :=
  (mailboxUids.getLast?).getD 0

/-- The tracking state right after `EmailListener.start`:
`max_uid = startupWatermark`, `processed_uids = set()`. -/
def startupState (mailboxUids : List Nat) : ListenerState :=
  { maxUid := startupWatermark mailboxUids, processedUids := [] }

/-! ### Event reporter (`reporter.py`) -/

/-- `reporter.EmailEvent`. -/
structure EmailEvent where
  timestamp : String
  subject : String
  from_address : String
  action : String
  reason : String
  agent_type : String := ""
  confidence : ℚ := 0
  processing_time : ℚ := 0

/-- Python `str(int)` rendering of a count. -/
def natStr (n : Nat) : String := toString n

/-- Python `f"{x:.2f}"` on the rationals the reporter handles (rounding
of exact half-cents differs from float formatting; no claim depends on
it). -/
def format2 (q : ℚ) : String :=
  let n : Int := round (q * 100)
  let sgn := if n < 0 then "-" else ""
  let m := n.natAbs
  let r := m % 100
  sgn ++ natStr (m / 100) ++ "." ++ (if r < 10 then "0" else "") ++ natStr r

/-- `event.action.replace('_', ' ')`. -/
def underscoreToSpace (s : String) : String :=
  String.mk (s.toList.map (fun c => if c == '_' then ' ' else c))

def titleAux : Bool → List Char → List Char
  | _, [] => []
  | prevAlpha, c :: rest =>
    if c.isAlpha then
      (if prevAlpha then c.toLower else c.toUpper) :: titleAux true rest
    else
      c :: titleAux false rest

/-- Python `str.title()`. -/
def pyTitle (s : String) : String := String.mk (titleAux false s.toList)

/-- The `action_class` computed per row of the HTML report. -/
def actionClass (action : String) : String :=
  if action == "processed" then "processed"
  else if "skipped".toList.isPrefixOf action.toList then "skipped"
  else if action == "error" then "error"
  else ""

/-- The rendered no-activity HTML template up to the generation time. -/
def noActivityHtmlHead : String :=
  "\n            <html>" ++
  "\n            <head>" ++
  "\n                <style>" ++
  "\n                    body \x7b font-family: Arial, sans-serif; margin: 20px; \x7d" ++
  "\n                    .header \x7b background-color: #f0f0f0; padding: 15px; border-radius: 5px; \x7d" ++
  "\n                    .no-activity \x7b text-align: center; padding: 40px; color: #666; \x7d" ++
  "\n                </style>" ++
  "\n            </head>" ++
  "\n            <body>" ++
  "\n                <div class=\"header\">" ++
  "\n                    <h1>📧 Email Agent Report</h1>" ++
  "\n                    <p><strong>Period:</strong> Last 15 minutes</p>" ++
  "\n                    <p><strong>Generated:</strong> "

/-- The rendered no-activity HTML template after the generation time. -/
def noActivityHtmlTail : String :=
  "</p>" ++
  "\n                </div>" ++
  "\n                <div class=\"no-activity\">" ++
  "\n                    <h2>No Email Activity</h2>" ++
  "\n                    <p>No emails were processed in the last 15 minutes.</p>" ++
  "\n                </div>" ++
  "\n            </body>" ++
  "\n            </html>" ++
  "\n            "

/-- The `html_report` of `_generate_report`'s empty branch (stripped). -/
def noActivityHtml (now : String) : String :=
  pyStrip (noActivityHtmlHead ++ now ++ noActivityHtmlTail)

/-- The rendered no-activity text template up to the generation time. -/
def noActivityTextHead : String :=
  "\nEMAIL AGENT REPORT\n==================\n\nPeriod: Last 15 minutes\nGenerated: "

/-- The rendered no-activity text template after the generation time. -/
def noActivityTextTail : String :=
  "\n\nSTATUS\n------\nNo Email Activity\n\nNo emails were processed in the last 15 minutes.\n"

/-- The `text_report` of `_generate_report`'s empty branch (stripped). -/
def noActivityText (now : String) : String :=
  pyStrip (noActivityTextHead ++ now ++ noActivityTextTail)

/-- One `<tr>` of the HTML activity report. -/
def htmlRow (e : EmailEvent) : String :=
  "\n                <tr class=\"" ++ actionClass e.action ++ "\">" ++
  "\n                    <td>" ++ e.timestamp ++ "</td>" ++
  "\n                    <td>" ++ e.from_address ++ "</td>" ++
  "\n                    <td>" ++ e.subject ++ "</td>" ++
  "\n                    <td>" ++ pyTitle (underscoreToSpace e.action) ++ "</td>" ++
  "\n                    <td>" ++ e.reason ++ "</td>" ++
  "\n                    <td>" ++ e.agent_type ++ "</td>" ++
  "\n                    <td>" ++
    (if 0 < e.confidence then format2 e.confidence else "-") ++ "</td>" ++
  "\n                </tr>" ++
  "\n            "

/-- The footer appended to the HTML activity report. -/
def htmlFooter : String :=
  "\n            </table>" ++
  "\n            " ++
  "\n            <div class=\"footer\">" ++
  "\n                <p>This report was automatically generated by the Email Agent system.</p>" ++
  "\n                <p>For questions or issues, please contact the system administrator.</p>" ++
  "\n            </div>" ++
  "\n        </body>" ++
  "\n        </html>" ++
  "\n        "

/-- The `html_report` of `_generate_report`'s non-empty branch. -/
def activityHtml (events : List EmailEvent) (now : String) : String :=
  let total_emails := events.length
  let processed := (events.filter (fun e => e.action == "processed")).length
  let skipped_spam := (events.filter (fun e => e.action == "skipped_spam")).length
  let skipped_auto := (events.filter (fun e => e.action == "skipped_auto")).length
  let errors := (events.filter (fun e => e.action == "error")).length
  let start_time := ((events.map EmailEvent.timestamp).min?).getD ""
  let end_time := ((events.map EmailEvent.timestamp).max?).getD ""
  "\n        <html>" ++
  "\n        <head>" ++
  "\n            <style>" ++
  "\n                body \x7b font-family: Arial, sans-serif; margin: 20px; \x7d" ++
  "\n                .header \x7b background-color: #f0f0f0; padding: 15px; border-radius: 5px; \x7d" ++
  "\n                .stats \x7b display: flex; gap: 20px; margin: 20px 0; \x7d" ++
  "\n                .stat-box \x7b background-color: #e8f4fd; padding: 15px; border-radius: 5px; text-align: center; \x7d" ++
  "\n                .stat-number \x7b font-size: 24px; font-weight: bold; color: #1976d2; \x7d" ++
  "\n                .stat-label \x7b color: #666; \x7d" ++
  "\n                table \x7b width: 100%; border-collapse: collapse; margin-top: 20px; \x7d" ++
  "\n                th, td \x7b border: 1px solid #ddd; padding: 8px; text-align: left; \x7d" ++
  "\n                th \x7b background-color: #f2f2f2; \x7d" ++
  "\n                .processed \x7b color: green; \x7d" ++
  "\n                .skipped \x7b color: orange; \x7d" ++
  "\n                .error \x7b color: red; \x7d" ++
  "\n                .footer \x7b margin-top: 30px; font-size: 12px; color: #666; \x7d" ++
  "\n            </style>" ++
  "\n        </head>" ++
  "\n        <body>" ++
  "\n            <div class=\"header\">" ++
  "\n                <h1>📧 Email Agent Report</h1>" ++
  "\n                <p><strong>Period:</strong> " ++ start_time ++ " to " ++ end_time ++ "</p>" ++
  "\n                <p><strong>Generated:</strong> " ++ now ++ "</p>" ++
  "\n            </div>" ++
  "\n            " ++
  "\n            <div class=\"stats\">" ++
  "\n                <div class=\"stat-box\">" ++
  "\n                    <div class=\"stat-number\">" ++ natStr total_emails ++ "</div>" ++
  "\n                    <div class=\"stat-label\">Total Emails</div>" ++
  "\n                </div>" ++
  "\n                <div class=\"stat-box\">" ++
  "\n                    <div class=\"stat-number\">" ++ natStr processed ++ "</div>" ++
  "\n                    <div class=\"stat-label\">Processed</div>" ++
  "\n                </div>" ++
  "\n                <div class=\"stat-box\">" ++
  "\n                    <div class=\"stat-number\">" ++ natStr (skipped_spam + skipped_auto) ++ "</div>" ++
  "\n                    <div class=\"stat-label\">Skipped</div>" ++
  "\n                </div>" ++
  "\n                <div class=\"stat-box\">" ++
  "\n                    <div class=\"stat-number\">" ++ natStr errors ++ "</div>" ++
  "\n                    <div class=\"stat-label\">Errors</div>" ++
  "\n                </div>" ++
  "\n            </div>" ++
  "\n            " ++
  "\n            <h2>📋 Email Details</h2>" ++
  "\n            <table>" ++
  "\n                <tr>" ++
  "\n                    <th>Time</th>" ++
  "\n                    <th>From</th>" ++
  "\n                    <th>Subject</th>" ++
  "\n                    <th>Action</th>" ++
  "\n                    <th>Reason</th>" ++
  "\n                    <th>Agent</th>" ++
  "\n                    <th>Confidence</th>" ++
  "\n                </tr>" ++
  "\n        " ++
  String.join (events.map htmlRow) ++
  htmlFooter

/-- One per-event block of the text activity report. -/
def textRow (e : EmailEvent) : String :=
  "\nTime: " ++ e.timestamp ++
  "\nFrom: " ++ e.from_address ++
  "\nSubject: " ++ e.subject ++
  "\nAction: " ++ pyTitle (underscoreToSpace e.action) ++
  "\nReason: " ++ e.reason ++
  "\nAgent: " ++ e.agent_type ++
  "\nConfidence: " ++
    (if 0 < e.confidence then format2 e.confidence else "N/A") ++
  "\nProcessing Time: " ++ format2 e.processing_time ++ "s" ++
  "\n" ++ String.mk (List.replicate 50 '=') ++ "\n"

/-- The `text_report` of `_generate_report`'s non-empty branch. -/
def activityText (events : List EmailEvent) (now : String) : String :=
  let total_emails := events.length
  let processed := (events.filter (fun e => e.action == "processed")).length
  let skipped_spam := (events.filter (fun e => e.action == "skipped_spam")).length
  let skipped_auto := (events.filter (fun e => e.action == "skipped_auto")).length
  let errors := (events.filter (fun e => e.action == "error")).length
  let start_time := ((events.map EmailEvent.timestamp).min?).getD ""
  let end_time := ((events.map EmailEvent.timestamp).max?).getD ""
  "\nEMAIL AGENT REPORT\n==================\n\nPeriod: " ++ start_time ++
  " to " ++ end_time ++ "\nGenerated: " ++ now ++
  "\n\nSTATISTICS\n----------\nTotal Emails: " ++ natStr total_emails ++
  "\nProcessed: " ++ natStr processed ++
  "\nSkipped: " ++ natStr (skipped_spam + skipped_auto) ++
  "\n  - Spam: " ++ natStr skipped_spam ++
  "\n  - Auto: " ++ natStr skipped_auto ++
  "\nErrors: " ++ natStr errors ++
  "\n\nEMAIL DETAILS\n-------------\n" ++
  String.join (events.map textRow)

/-- `EmailReporter._generate_report`: the buffer is copied and cleared
under the lock (read-and-clear), then either the no-activity summary or
the full summary is rendered from the copy.  Returns the buffer left
behind together with the `(html, text)` pair.  The wall-clock timestamp
`datetime.now()` is the parameter `now`. -/
def generate_report (events : List EmailEvent) (now : String) :
    List EmailEvent × String × String :=
  if events.isEmpty then
    ([], noActivityHtml now, noActivityText now)
  else
    ([], activityHtml events now, activityText events now)

/-! ## Theorems -/

/-- C7: for every message whose sender matches the configured
trusted-domain allow-list (the `WHITELIST` substring test, evaluated
first in `is_auto_or_spam`), the intake filter accepts the message —
`is_auto_or_spam` returns `false` — regardless of the subject and body
content. -/
theorem whitelist_always_accepted (email : EmailContent)
    (h : WHITELIST.any
        (fun allowed => strContains (strToLower email.from_address) allowed) = true) :
    is_auto_or_spam email = false := by
  unfold is_auto_or_spam
  simp [h]

/-- A message whose subject and body trip every keyword rule, sent from a
whitelisted (Gmail) address. -/
def spamLookingGmailEmail : EmailContent :=
  { subject := "unsubscribe discount offer invoice",
    from_address := "Jane.Doe@Gmail.com",
    to_addresses := ["me@example.com"],
    plain_text := "limited time deal, click the ad now" }

theorem whitelist_always_accepted_witness :
    WHITELIST.any
        (fun allowed =>
          strContains (strToLower spamLookingGmailEmail.from_address) allowed) = true ∧
    is_auto_or_spam spamLookingGmailEmail = false :=
  ⟨by rfl, whitelist_always_accepted spamLookingGmailEmail (by rfl)⟩

/-- C9: the Stage-1 rule cascade never consults the message body — two
messages with the same sender address and the same subject receive the
same `is_auto_or_spam` verdict whatever their plain-text bodies. -/
theorem intake_filter_body_independent (e1 e2 : EmailContent)
    (hfrom : e1.from_address = e2.from_address)
    (hsubj : e1.subject = e2.subject) :
    is_auto_or_spam e1 = is_auto_or_spam e2 := by
  unfold is_auto_or_spam
  rw [hfrom, hsubj]

/-- An invoice notification with one body. -/
def invoiceEmailBodyA : EmailContent :=
  { subject := "Invoice overdue",
    from_address := "billing@corporate.example",
    to_addresses := ["me@example.com"],
    plain_text := "please remit payment" }

/-- The same sender and subject with an entirely different body. -/
def invoiceEmailBodyB : EmailContent :=
  { subject := "Invoice overdue",
    from_address := "billing@corporate.example",
    to_addresses := ["me@example.com"],
    plain_text := "hey, are we still on for lunch on Tuesday?" }

theorem intake_filter_body_independent_witness :
    is_auto_or_spam invoiceEmailBodyA = is_auto_or_spam invoiceEmailBodyB :=
  intake_filter_body_independent invoiceEmailBodyA invoiceEmailBodyB rfl rfl

/-- C3: on a completion response without a parseable JSON object —
`re.search` finds no `\x7b...\x7d` region, or `json.loads` rejects it —
the router's parse returns a `RoutingDecision` with category `"general"`
and confidence exactly `0.5`, and raises no exception. -/
theorem router_unparseable_fallback (text : String)
    (h : parseJsonObject text = ParseOutcome.noMatch ∨
         parseJsonObject text = ParseOutcome.decodeError) :
    ∃ r, RouterAgent.parse_response text =
      Except.ok { agent_type := Json.str "general", confidence := 1/2,
                  reasoning := r, requires_information := false } := by
  unfold RouterAgent.parse_response
  rcases h with h | h <;> rw [h] <;> exact ⟨_, rfl⟩

theorem router_unparseable_fallback_witness :
    ∃ r, RouterAgent.parse_response "sure, happy to help" =
      Except.ok { agent_type := Json.str "general", confidence := 1/2,
                  reasoning := r, requires_information := false } :=
  router_unparseable_fallback "sure, happy to help" (Or.inl rfl)

/-- A completion response whose JSON carries `confidence: 2`. -/
def overconfidentResponse : String :=
  "\x7b\"agent_type\": \"scheduling\", \"confidence\": 2\x7d"

/-- C6 (counterexample): the router performs no clamping — a response
whose JSON carries a confidence of `2` yields a `RoutingDecision` whose
confidence is `2`, outside `[0, 1]`. -/
theorem router_confidence_counterexample :
    ∃ d, RouterAgent.parse_response overconfidentResponse = Except.ok d ∧
      1 < d.confidence := by
  have e1 : decimalToRat ['2'] [] = 2 := by
    have h2 : digitsToNat ['2'] = 2 := rfl
    have h0 : digitsToNat [] = 0 := rfl
    norm_num [decimalToRat, h2, h0]
  have hrun : RouterAgent.parse_response overconfidentResponse =
      Except.ok { agent_type := Json.str "scheduling",
                  confidence := decimalToRat ['2'] [],
                  reasoning := Json.str "",
                  requires_information := false } := rfl
  refine ⟨_, hrun, ?_⟩
  show (1 : ℚ) < decimalToRat ['2'] []
  rw [e1]
  norm_num

/-- C6 (amended): when the response contains a parseable JSON object
whose `confidence` field is a number `q`, the router returns `q`
verbatim — no clamping to `[0, 1]` is applied (and no exception is
raised); only the parse-failure fallback confidence `0.5` is guaranteed
to lie in the interval. -/
theorem router_confidence_passthrough (text : String)
    (fields : List (String × Json)) (q : ℚ)
    (hparse : parseJsonObject text = ParseOutcome.ok fields)
    (hconf : jsonGet fields "confidence" = some (Json.num q)) :
    RouterAgent.parse_response text =
      Except.ok { agent_type := pyGet fields "agent_type" (.str "general"),
                  confidence := q,
                  reasoning := pyGet fields "reasoning" (.str ""),
                  requires_information :=
                    pyTruthy (pyGet fields "requires_information" (.bool false)) } := by
  have hg : pyGet fields "confidence" (.num (1/2)) = Json.num q := by
    simp [pyGet, hconf]
  simp only [RouterAgent.parse_response, hparse, hg, pyFloat]

theorem router_confidence_passthrough_witness :
    RouterAgent.parse_response overconfidentResponse =
      Except.ok { agent_type :=
                    pyGet [("agent_type", Json.str "scheduling"),
                           ("confidence", Json.num 2)] "agent_type"
                      (.str "general"),
                  confidence := 2,
                  reasoning :=
                    pyGet [("agent_type", Json.str "scheduling"),
                           ("confidence", Json.num 2)] "reasoning" (.str ""),
                  requires_information :=
                    pyTruthy (pyGet [("agent_type", Json.str "scheduling"),
                           ("confidence", Json.num 2)] "requires_information"
                      (.bool false)) } := by
  have e1 : decimalToRat ['2'] [] = 2 := by
    have h2 : digitsToNat ['2'] = 2 := rfl
    have h0 : digitsToNat [] = 0 := rfl
    norm_num [decimalToRat, h2, h0]
  have hparse : parseJsonObject overconfidentResponse =
      ParseOutcome.ok [("agent_type", Json.str "scheduling"),
                       ("confidence", Json.num 2)] := by
    have h : parseJsonObject overconfidentResponse =
        ParseOutcome.ok [("agent_type", Json.str "scheduling"),
                         ("confidence", Json.num (decimalToRat ['2'] []))] := rfl
    rw [h, e1]
  exact router_confidence_passthrough overconfidentResponse
    [("agent_type", Json.str "scheduling"), ("confidence", Json.num 2)] 2
    hparse (by rfl)

/-- The addressee of the malformed-response drafting examples. -/
def plainEmail : EmailContent :=
  { subject := "hello",
    from_address := "alice@example.com",
    to_addresses := ["me@example.com"],
    plain_text := "hi there" }

/-- C4 (counterexample): the General variant does not return a non-empty
fallback body — it copies the raw completion text verbatim, so the empty
response (which contains no JSON object) produces a reply whose body text
is the empty string. -/
theorem general_agent_empty_body_counterexample :
    parseJsonObject "" = ParseOutcome.noMatch ∧
    (GeneralAgent.draft_response "" plainEmail).reply_body_text = Json.str "" :=
  ⟨rfl, rfl⟩

/-- C4 (amended): on a malformed completion response (no JSON object
present, or JSON that fails to parse) the Scheduling, Business and
Information variants each return a fixed non-empty fallback body without
raising; the General variant performs no parsing and returns the raw
response text verbatim as its body (also without raising), so its body is
empty exactly when the response text is empty. -/
theorem expert_malformed_fallbacks (text : String) (email : EmailContent)
    (h : parseJsonObject text = ParseOutcome.noMatch ∨
         parseJsonObject text = ParseOutcome.decodeError) :
    (∃ s, (SchedulingAgent.parse_response text email).reply_body_text =
        Json.str s ∧ s ≠ "") ∧
    (∃ s, (BusinessAgent.parse_response text email).reply_body_text =
        Json.str s ∧ s ≠ "") ∧
    (∃ s, (InformationAgent.parse_response text email).reply_body_text =
        Json.str s ∧ s ≠ "") ∧
    (∀ content, (GeneralAgent.draft_response content email).reply_body_text =
        Json.str content) := by
  refine ⟨?_, ?_, ?_, fun content => rfl⟩ <;> rcases h with h | h <;>
    simp only [SchedulingAgent.parse_response, BusinessAgent.parse_response,
      InformationAgent.parse_response, schedulingErrorFallback, h] <;>
    exact ⟨_, rfl, by decide⟩

/-- `find?` does not see elements removed by a filter that is implied by
the search predicate. -/
theorem find?_filter_of_imp {α : Type} (l : List α) (p q : α → Bool)
    (h : ∀ x, p x = true → q x = true) :
    (l.filter q).find? p = l.find? p := by
  induction l with
  | nil => rfl
  | cons a t ih =>
    by_cases hq : q a = true
    · rw [List.filter_cons_of_pos hq]
      by_cases hp : p a = true
      · rw [List.find?_cons_of_pos _ hp, List.find?_cons_of_pos _ hp]
      · rw [List.find?_cons_of_neg _ (by simpa using hp),
            List.find?_cons_of_neg _ (by simpa using hp), ih]
    · have hp : ¬ p a = true := fun hpa => hq (h a hpa)
      rw [List.filter_cons_of_neg (by simpa using hq),
          List.find?_cons_of_neg _ (by simpa using hp), ih]

/-- Looking up the key just assigned returns the new value. -/
theorem jsonGet_set_self (d : List (String × Json)) (k : String) (v : Json) :
    jsonGet (jsonSet d k v) k = some v := by
  simp [jsonGet, jsonSet, List.reverse_append, List.find?]

/-- Assigning one key leaves lookups of a different key unchanged. -/
theorem jsonGet_set_ne (d : List (String × Json)) (k k' : String) (v : Json)
    (h : k' ≠ k) : jsonGet (jsonSet d k v) k' = jsonGet d k' := by
  unfold jsonGet jsonSet
  rw [List.reverse_append]
  have hk : ((k, v).1 == k') = false := by
    simp [show k ≠ k' from fun e => h e.symm]
  rw [show ([(k, v)].reverse : List (String × Json)) = [(k, v)] from rfl]
  rw [List.cons_append, List.nil_append, List.find?_cons_of_neg _ (by simp [hk]),
      ← List.filter_reverse]
  rw [find?_filter_of_imp]
  intro x hx
  have hxk : x.1 = k' := by simpa using hx
  simp [hxk, show k' ≠ k from h]

/-- `pyGet` versions of the two lookup lemmas. -/
theorem pyGet_set_self (d : List (String × Json)) (k : String) (v dv : Json) :
    pyGet (jsonSet d k v) k dv = v := by
  simp [pyGet, jsonGet_set_self]

theorem pyGet_set_ne (d : List (String × Json)) (k k' : String) (v dv : Json)
    (h : k' ≠ k) : pyGet (jsonSet d k v) k' dv = pyGet d k' dv := by
  simp [pyGet, jsonGet_set_ne _ _ _ _ h]

theorem expert_malformed_fallbacks_witness :
    (∃ s, (SchedulingAgent.parse_response "###" plainEmail).reply_body_text =
        Json.str s ∧ s ≠ "") ∧
    (∃ s, (BusinessAgent.parse_response "###" plainEmail).reply_body_text =
        Json.str s ∧ s ≠ "") ∧
    (∃ s, (InformationAgent.parse_response "###" plainEmail).reply_body_text =
        Json.str s ∧ s ≠ "") ∧
    (∀ content, (GeneralAgent.draft_response content plainEmail).reply_body_text =
        Json.str content) :=
  expert_malformed_fallbacks "###" plainEmail (Or.inl rfl)

/-- A grounding verdict that is not grounded but lists no potential
hallucinations. -/
def ungroundedNoHallucinations : FactualGroundingResult :=
  { is_grounded := .bool false, confidence_score := .num 0,
    missing_facts := .arr [], potential_hallucinations := .arr [],
    validated_facts := .arr [] }

/-- A drafted reply with both a plain-text and an HTML body. -/
def sampleReplyFields : List (String × Json) :=
  [("reply_subject", .str "Re: hello"),
   ("reply_body_text", .str "Hello"),
   ("reply_body_html", .str "<p>Hello</p>")]

set_option maxRecDepth 8192 in
/-- C5 (counterexample): a draft whose grounding validation returns
`is_grounded = false` but an empty `potential_hallucinations` list
receives no disclaimer at all — the reply data is returned unchanged, so
the plain-text body is not the disclaimer-extended one the claim
promises. -/
theorem grounding_no_disclaimer_counterexample :
    pyTruthy ungroundedNoHallucinations.is_grounded = false ∧
    applyGroundingMut sampleReplyFields ungroundedNoHallucinations =
      (sampleReplyFields, none) ∧
    pyGet (applyGroundingMut sampleReplyFields ungroundedNoHallucinations).1
        "reply_body_text" (.str "") ≠ Json.str ("Hello" ++ disclaimerText) := by
  refine ⟨rfl, rfl, ?_⟩
  intro hcontra
  have h1 : pyGet (applyGroundingMut sampleReplyFields
      ungroundedNoHallucinations).1 "reply_body_text" (.str "") =
      Json.str "Hello" := rfl
  rw [h1] at hcontra
  injection hcontra with hs
  have hlen := congrArg String.length hs
  rw [String.length_append] at hlen
  have hd : disclaimerText.length ≠ 0 := by decide
  omega

/-- C5 (amended): the disclaimer is appended only when the ungrounded
verdict also lists at least one potential hallucination; in that case it
is appended to the plain-text body, and to the HTML body exactly when an
HTML body is present (truthy).  When the hallucination list is empty the
reply data passes through unchanged, and a failure of the validator is
swallowed — in every case the grounding step returns reply data rather
than raising, so the reply is still delivered. -/
theorem grounding_disclaimer_amended (data : List (String × Json))
    (vr : FactualGroundingResult) (s : String)
    (hg : pyTruthy vr.is_grounded = false)
    (htext : pyGet data "reply_body_text" (.str "") = Json.str s) :
    (pyTruthy vr.potential_hallucinations = true →
      pyGet (applyGroundingMut data vr).1 "reply_body_text" (.str "") =
        Json.str (s ++ disclaimerText) ∧
      (∀ h, pyGet data "reply_body_html" .null = Json.str h → h ≠ "" →
        pyGet (applyGroundingMut data vr).1 "reply_body_html" .null =
          Json.str (h ++ disclaimerHtml))) ∧
    (pyTruthy vr.potential_hallucinations = false →
      applyGroundingMut data vr = (data, none)) ∧
    (∀ e, groundingPhase data (Except.error e) = data) := by
  have hne : ("reply_body_html" : String) ≠ "reply_body_text" := by decide
  have hmut : applyGroundingMut data vr =
      (if pyTruthy vr.potential_hallucinations then
        (let data1 := jsonSet data "reply_body_text"
            (.str (s ++ disclaimerText))
         if pyTruthy (pyGet data1 "reply_body_html" .null) then
           match pyAddStr (pyGet data1 "reply_body_html" .null)
               disclaimerHtml with
           | .error e => (data1, some e)
           | .ok newHtml => (jsonSet data1 "reply_body_html" newHtml, none)
         else (data1, none))
      else (data, none)) := by
    simp only [applyGroundingMut, hg, htext, pyAddStr, Bool.false_eq_true,
      if_false]
  refine ⟨fun hh => ?_, fun hh => ?_, fun e => rfl⟩
  · rw [hmut, if_pos hh]
    have hshift : pyGet (jsonSet data "reply_body_text"
        (.str (s ++ disclaimerText))) "reply_body_html" .null =
        pyGet data "reply_body_html" .null :=
      pyGet_set_ne _ _ _ _ _ hne
    constructor
    · -- the plain-text body carries the disclaimer on every branch
      dsimp only
      rw [hshift]
      by_cases hb : pyTruthy (pyGet data "reply_body_html" .null) = true
      · rw [if_pos hb]
        rcases hadd : pyAddStr (pyGet data "reply_body_html" .null)
            disclaimerHtml with e | newHtml
        · exact pyGet_set_self _ _ _ _
        · rw [pyGet_set_ne _ _ _ _ _ hne.symm]
          exact pyGet_set_self _ _ _ _
      · rw [if_neg hb]
        exact pyGet_set_self _ _ _ _
    · intro h hhtml hne'
      dsimp only
      rw [hshift, hhtml]
      have hb : pyTruthy (Json.str h) = true := by
        simp [pyTruthy, hne']
      rw [if_pos hb]
      simp only [pyAddStr]
      rw [pyGet_set_self]
  · rw [hmut, if_neg (by simp [hh])]

/-- UIDs traced by one poll pass were not already in the processed set. -/
theorem pollIteration_trace_fresh (batch : List Nat) :
    ∀ (s : ListenerState) (u : Nat), u ∈ (pollIteration s batch).2 →
      u ∉ s.processedUids := by
  induction batch with
  | nil => intro s u hu; simp [pollIteration] at hu
  | cons uid rest ih =>
    intro s u hu hmem
    by_cases h0 : uid ∈ s.processedUids
    · rw [pollIteration, if_pos h0] at hu
      exact ih s u hu hmem
    · rw [pollIteration, if_neg h0] at hu
      dsimp only at hu
      rcases List.mem_cons.mp hu with rfl | hu
      · exact h0 hmem
      · exact ih _ u hu (List.mem_cons_of_mem _ hmem)

/-- The processed set only grows during a poll pass. -/
theorem pollIteration_processed_mono (batch : List Nat) :
    ∀ (s : ListenerState) (u : Nat), u ∈ s.processedUids →
      u ∈ (pollIteration s batch).1.processedUids := by
  induction batch with
  | nil => intro s u hu; simpa [pollIteration] using hu
  | cons uid rest ih =>
    intro s u hu
    by_cases h0 : uid ∈ s.processedUids
    · rw [pollIteration, if_pos h0]
      exact ih s u hu
    · rw [pollIteration, if_neg h0]
      dsimp only
      exact ih _ u (List.mem_cons_of_mem _ hu)

/-- Every UID traced by a poll pass ends up in the processed set. -/
theorem pollIteration_trace_processed (batch : List Nat) :
    ∀ (s : ListenerState) (u : Nat), u ∈ (pollIteration s batch).2 →
      u ∈ (pollIteration s batch).1.processedUids := by
  induction batch with
  | nil => intro s u hu; simp [pollIteration] at hu
  | cons uid rest ih =>
    intro s u hu
    by_cases h0 : uid ∈ s.processedUids
    · rw [pollIteration, if_pos h0] at hu ⊢
      exact ih s u hu
    · rw [pollIteration, if_neg h0] at hu ⊢
      dsimp only at hu ⊢
      rcases List.mem_cons.mp hu with rfl | hu
      · exact pollIteration_processed_mono rest _ u (List.mem_cons_self _ _)
      · exact ih _ u hu

/-- One poll pass never runs the pipeline twice on the same UID. -/
theorem pollIteration_trace_nodup (batch : List Nat) :
    ∀ s : ListenerState, (pollIteration s batch).2.Nodup := by
  induction batch with
  | nil => intro s; simp [pollIteration]
  | cons uid rest ih =>
    intro s
    by_cases h0 : uid ∈ s.processedUids
    · rw [pollIteration, if_pos h0]
      exact ih s
    · rw [pollIteration, if_neg h0]
      dsimp only
      refine List.nodup_cons.mpr ⟨?_, ih _⟩
      intro hu
      exact pollIteration_trace_fresh rest _ uid hu (List.mem_cons_self _ _)

/-- The traced UIDs all come from the discovery batch. -/
theorem pollIteration_trace_subset (batch : List Nat) :
    ∀ (s : ListenerState) (u : Nat), u ∈ (pollIteration s batch).2 →
      u ∈ batch := by
  induction batch with
  | nil => intro s u hu; simp [pollIteration] at hu
  | cons uid rest ih =>
    intro s u hu
    by_cases h0 : uid ∈ s.processedUids
    · rw [pollIteration, if_pos h0] at hu
      exact List.mem_cons_of_mem _ (ih s u hu)
    · rw [pollIteration, if_neg h0] at hu
      dsimp only at hu
      rcases List.mem_cons.mp hu with rfl | hu
      · exact List.mem_cons_self _ _
      · exact List.mem_cons_of_mem _ (ih _ u hu)

/-- The watermark never decreases during a poll pass. -/
theorem pollIteration_maxUid_mono (batch : List Nat) :
    ∀ s : ListenerState, s.maxUid ≤ (pollIteration s batch).1.maxUid := by
  induction batch with
  | nil => intro s; simp [pollIteration]
  | cons uid rest ih =>
    intro s
    by_cases h0 : uid ∈ s.processedUids
    · rw [pollIteration, if_pos h0]
      exact ih s
    · rw [pollIteration, if_neg h0]
      dsimp only
      refine le_trans ?_ (ih _)
      by_cases hlt : s.maxUid < uid <;> simp [hlt]
      exact le_of_lt hlt

/-- Run invariant: the trace has no duplicates and avoids the initial
processed set. -/
theorem listenerRun_nodup_fresh {s : ListenerState} {tr : List Nat}
    {s1 : ListenerState} (h : listenerRun s tr s1) :
    tr.Nodup ∧ ∀ u ∈ tr, u ∉ s.processedUids := by
  induction h with
  | done s => simp
  | poll s batch h ih =>
    obtain ⟨ihn, ihf⟩ := ih
    constructor
    · rw [List.nodup_append]
      refine ⟨pollIteration_trace_nodup _ _, ihn, ?_⟩
      intro u hu hu'
      exact ihf u hu' (pollIteration_trace_processed _ _ u hu)
    · intro u hu
      rcases List.mem_append.mp hu with h1 | h2
      · exact pollIteration_trace_fresh _ _ u h1
      · intro hmem
        exact ihf u h2 (pollIteration_processed_mono _ _ u hmem)
  | reconnect s h ih => exact ih

/-- C1: in every run of the watcher loop — however the discovery batches
overlap, and across reconnects, which clear neither the processed set nor
the watermark — the pipeline runs at most once per UID: the run's trace
of processed UIDs has no duplicates. -/
theorem watcher_at_most_once (s0 : ListenerState) (tr : List Nat)
    (s1 : ListenerState) (hrun : listenerRun s0 tr s1) : tr.Nodup :=
  (listenerRun_nodup_fresh hrun).1

theorem watcher_at_most_once_witness : ([7, 8] : List Nat).Nodup :=
  watcher_at_most_once ⟨5, []⟩ [7, 8] _
    (listenerRun.poll ⟨5, []⟩ [7, 7]
      (listenerRun.reconnect _
        (listenerRun.poll _ [7, 8] (listenerRun.done _))))

/-- In an anchored run every traced UID exceeds the initial watermark. -/
theorem anchoredRun_trace_above {s : ListenerState} {tr : List Nat}
    {s1 : ListenerState} (h : anchoredRun s tr s1) :
    ∀ u ∈ tr, s.maxUid < u := by
  induction h with
  | done s => simp
  | poll s batch hbatch h ih =>
    intro u hu
    rcases List.mem_append.mp hu with h1 | h2
    · exact hbatch u (pollIteration_trace_subset _ _ u h1)
    · exact lt_of_le_of_lt (pollIteration_maxUid_mono _ s) (ih u h2)
  | reconnect s h ih => exact ih

/-- C2: starting from the startup state — watermark `W` set to the
highest UID present in the mailbox, empty processed set — a run whose
discovery batches honour the issued search range processes only UIDs
strictly above `W`; in particular no message already in the mailbox at
startup (hence with UID at most `W`), even an unseen one, is ever fed
through the pipeline. -/
theorem watcher_anchoring (mailboxUids : List Nat) (tr : List Nat)
    (s1 : ListenerState)
    (hrun : anchoredRun (startupState mailboxUids) tr s1) :
    (∀ u ∈ tr, startupWatermark mailboxUids < u) ∧
    (∀ u ∈ mailboxUids, u ≤ startupWatermark mailboxUids → u ∉ tr) := by
  have h := anchoredRun_trace_above hrun
  refine ⟨h, ?_⟩
  intro u _ hle htr
  exact absurd (h u htr) (not_lt.mpr hle)

theorem watcher_anchoring_witness :
    (∀ u ∈ ([8] : List Nat), startupWatermark [3, 5] < u) ∧
    (∀ u ∈ ([3, 5] : List Nat), u ≤ startupWatermark [3, 5] →
      u ∉ ([8] : List Nat)) :=
  watcher_anchoring [3, 5] [8] _
    (anchoredRun.poll (startupState [3, 5]) [8] (by decide)
      (anchoredRun.done _))

/-- A grounding verdict that is ungrounded and names a hallucination. -/
def ungroundedWithHallucinations : FactualGroundingResult :=
  { is_grounded := .bool false, confidence_score := .num 0,
    missing_facts := .arr [],
    potential_hallucinations := .arr [.str "made-up address"],
    validated_facts := .arr [] }

/-- A drafted reply used to exercise the disclaimer-appending branch. -/
def halluReplyFields : List (String × Json) :=
  [("reply_body_text", .str "Hi"), ("reply_body_html", .str "<p>Hi</p>")]

theorem grounding_disclaimer_amended_witness :
    pyGet (applyGroundingMut halluReplyFields ungroundedWithHallucinations).1
        "reply_body_text" (.str "") = Json.str ("Hi" ++ disclaimerText) ∧
    pyGet (applyGroundingMut halluReplyFields ungroundedWithHallucinations).1
        "reply_body_html" .null = Json.str ("<p>Hi</p>" ++ disclaimerHtml) := by
  have h := grounding_disclaimer_amended halluReplyFields
    ungroundedWithHallucinations "Hi" rfl rfl
  exact ⟨(h.1 rfl).1, (h.1 rfl).2 "<p>Hi</p>" rfl (by decide)⟩

/-- A truthy `d.get(k)` forces `bool(d.get(k, False))` to be `True`. -/
theorem pyTruthy_pyGet_false_default {f : List (String × Json)} {k : String}
    (h : pyTruthyOpt (jsonGet f k) = true) :
    pyTruthy (pyGet f k (.bool false)) = true := by
  unfold pyGet
  cases hj : jsonGet f k with
  | none => rw [hj] at h; exact absurd h (by simp [pyTruthyOpt])
  | some j => rw [hj] at h; simpa [pyTruthyOpt] using h

/-- C10: every decision any stage constructs pairs a meeting with the
needs-meeting flag: the Scheduling expert's parse, the analyze-and-draft
path and the reviewer only build a meeting when the parsed response's
needs-meeting field is truthy (which the flag then reflects), and the
Business, Information and General variants always return no meeting. -/
theorem meeting_needs_meeting_invariant :
    (∀ text email,
       (SchedulingAgent.parse_response text email).meeting.isSome = true →
       (SchedulingAgent.parse_response text email).needs_meeting = true) ∧
    (∀ text email, (BusinessAgent.parse_response text email).meeting = none) ∧
    (∀ text email, (InformationAgent.parse_response text email).meeting = none) ∧
    (∀ content email,
       (GeneralAgent.draft_response content email).meeting = none) ∧
    (∀ content vo ev email tz dur d,
       analyze_and_draft content vo ev email tz dur = Except.ok d →
       d.meeting.isSome = true → d.needs_meeting = true) ∧
    (∀ content draft email d,
       review_draft content draft email = Except.ok d →
       d.final_meeting.isSome = true → d.final_needs_meeting = true) := by
  refine ⟨?_, ?_, ?_, ?_, ?_, ?_⟩
  · intro text email h
    cases hp : parseJsonObject text with
    | noMatch => simp [SchedulingAgent.parse_response, hp] at h
    | decodeError =>
        simp [SchedulingAgent.parse_response, hp, schedulingErrorFallback] at h
    | ok fields =>
        simp only [SchedulingAgent.parse_response, hp] at h ⊢
        by_cases hc : (pyTruthyOpt (jsonGet fields "needs_meeting") &&
            pyTruthyOpt (jsonGet fields "meeting")) = true
        · rw [if_pos hc] at h ⊢
          have hc' : pyTruthyOpt (jsonGet fields "needs_meeting") = true ∧
              pyTruthyOpt (jsonGet fields "meeting") = true := by
            simpa using hc
          rcases hb : buildSchedulingMeeting
              ((jsonGet fields "meeting").getD .null) with e | m
          · rw [hb] at h
            simp [Except.map, schedulingErrorFallback] at h
          · exact pyTruthy_pyGet_false_default hc'.1
        · rw [if_neg hc] at h
          simp at h
  · intro text email
    cases hp : parseJsonObject text <;>
      simp [BusinessAgent.parse_response, hp]
  · intro text email
    cases hp : parseJsonObject text <;>
      simp [InformationAgent.parse_response, hp]
  · intro content email
    rfl
  · intro content vo ev email tz dur d h hms
    by_cases hcont : (content == "") = true
    · simp [analyze_and_draft, hcont] at h
    · rcases hload : jsonLoads content with _ | j
      · simp [analyze_and_draft, hcont, hload] at h
      · rcases hobj : expectObj j with e | data0
        · simp [analyze_and_draft, hcont, hload, hobj] at h
        · simp only [analyze_and_draft, hcont, hload, hobj,
            Bool.false_eq_true, if_false] at h
          by_cases hc : (pyTruthyOpt (jsonGet (if ev then
                groundingPhase data0 vo else data0) "needs_meeting") &&
              pyTruthyOpt (jsonGet (if ev then
                groundingPhase data0 vo else data0) "meeting")) = true
          · rw [if_pos hc] at h
            have hc' : pyTruthyOpt (jsonGet (if ev then
                  groundingPhase data0 vo else data0) "needs_meeting") = true ∧
                pyTruthyOpt (jsonGet (if ev then
                  groundingPhase data0 vo else data0) "meeting") = true := by
              simpa using hc
            rcases hbm : buildMeetingJson
                ((jsonGet (if ev then groundingPhase data0 vo else data0)
                  "meeting").getD .null) email.subject tz dur
                email.from_address with e | m
            · rw [hbm] at h
              simp at h
            · rw [hbm] at h
              injection h with h'
              subst h'
              exact hc'.1
          · rw [if_neg hc] at h
            injection h with h'
            subst h'
            simp at hms
  · intro content draft email d h hms
    by_cases hcont : (content == "") = true
    · simp [review_draft, hcont] at h
    · rcases hload : jsonLoads content with _ | j
      · simp [review_draft, hcont, hload] at h
      · rcases hobj : expectObj j with e | data
        · simp [review_draft, hcont, hload, hobj] at h
        · simp only [review_draft, hcont, hload, hobj,
            Bool.false_eq_true, if_false] at h
          by_cases hc : (pyTruthyOpt (jsonGet data "final_needs_meeting") &&
              pyTruthyOpt (jsonGet data "final_meeting")) = true
          · rw [if_pos hc] at h
            have hc' : pyTruthyOpt (jsonGet data "final_needs_meeting") = true ∧
                pyTruthyOpt (jsonGet data "final_meeting") = true := by
              simpa using hc
            rcases hbm : buildMeetingJson
                ((jsonGet data "final_meeting").getD .null) email.subject
                "UTC" 30 email.from_address with e | m
            · rw [hbm] at h
              simp at h
            · rw [hbm] at h
              injection h with h'
              subst h'
              exact hc'.1
          · rw [if_neg hc] at h
            injection h with h'
            subst h'
            simp at hms

/-- A scheduling-expert completion response proposing a meeting. -/
def schedulingMeetingResponse : String :=
  "\x7b\"needs_meeting\": true, \"meeting\": \x7b\"start_time\": \"2024-01-15 14:00\"\x7d, \"body_text\": \"ok\"\x7d"

/-- An `analyze_and_draft` completion response proposing a meeting. -/
def analyzeMeetingResponse : String :=
  "\x7b\"needs_meeting\": true, \"meeting\": \x7b\"start_datetime\": \"2024-01-15T14:00\", \"duration_minutes\": \"45\", \"attendees\": [\"bob@example.com\"]\x7d\x7d"

/-- A reviewer completion response proposing a meeting. -/
def reviewMeetingResponse : String :=
  "\x7b\"final_needs_meeting\": true, \"final_meeting\": \x7b\"start_datetime\": \"2024-01-15T14:00\", \"duration_minutes\": \"45\", \"attendees\": [\"bob@example.com\"]\x7d\x7d"

/-- The meeting normalised from `analyzeMeetingResponse` and
`reviewMeetingResponse`. -/
def witnessMeeting : MeetingDetails :=
  { title := .str "hello",
    start_datetime := some "2024-01-15T14:00",
    duration_minutes := .num ((45 : Int) : ℚ),
    timezone := .str "UTC",
    location := .null,
    attendees := [.str "bob@example.com"],
    description := .null }

/-- The draft decision `analyze_and_draft` produces for
`analyzeMeetingResponse`. -/
def analyzeWitnessDecision : DraftDecision :=
  { reply_subject := .str "Re: hello",
    reply_body_text := .str "",
    reply_body_html := .null,
    needs_meeting := true,
    meeting := some witnessMeeting }

/-- The review decision `review_draft` produces for
`reviewMeetingResponse`. -/
def reviewWitnessDecision : ReviewDecision :=
  { approved := false,
    suggested_changes := .null,
    final_subject := .str "Re: hello",
    final_body_text := .str "hi",
    final_body_html := .null,
    final_needs_meeting := true,
    final_meeting := some witnessMeeting }

set_option maxRecDepth 16384 in
theorem meeting_needs_meeting_invariant_witness :
    (SchedulingAgent.parse_response schedulingMeetingResponse
        plainEmail).needs_meeting = true ∧
    (BusinessAgent.parse_response "hello there" plainEmail).meeting = none ∧
    (analyze_and_draft analyzeMeetingResponse
        (Except.error PyErr.typeError) false plainEmail "UTC" 30 =
          Except.ok analyzeWitnessDecision ∧
      analyzeWitnessDecision.needs_meeting = true) ∧
    (review_draft reviewMeetingResponse
        (GeneralAgent.draft_response "hi" plainEmail) plainEmail =
          Except.ok reviewWitnessDecision ∧
      reviewWitnessDecision.final_needs_meeting = true) :=
  ⟨meeting_needs_meeting_invariant.1 _ _ (by rfl),
   meeting_needs_meeting_invariant.2.1 _ _,
   ⟨by rfl, meeting_needs_meeting_invariant.2.2.2.2.1 analyzeMeetingResponse
      (Except.error PyErr.typeError) false plainEmail "UTC" 30
      analyzeWitnessDecision (by rfl) (by rfl)⟩,
   ⟨by rfl, meeting_needs_meeting_invariant.2.2.2.2.2 reviewMeetingResponse
      (GeneralAgent.draft_response "hi" plainEmail) plainEmail
      reviewWitnessDecision (by rfl) (by rfl)⟩⟩

/-- Stripping cannot empty a list that contains a non-whitespace
character. -/
theorem stripChars_ne_nil {l : List Char} {c : Char}
    (hc : isPySpace c = false) (hm : c ∈ l) : stripChars l ≠ [] := by
  intro h
  unfold stripChars at h
  have h2 : (l.dropWhile isPySpace).reverse.dropWhile isPySpace = [] := by
    have h1 := congrArg List.reverse h
    simpa using h1
  rw [List.dropWhile_eq_nil_iff] at h2
  have h3 : c ∈ l.dropWhile isPySpace := by
    have h4 := hm
    rw [← List.takeWhile_append_dropWhile (p := isPySpace) (l := l)] at h4
    rcases List.mem_append.mp h4 with h5 | h5
    · have h6 := List.mem_takeWhile_imp h5
      rw [hc] at h6
      exact absurd h6 (by simp)
    · exact h5
  have h7 := h2 c (List.mem_reverse.mpr h3)
  rw [hc] at h7
  exact Bool.false_ne_true h7

/-- `str.strip()` of a string containing a non-whitespace character is
non-empty. -/
theorem pyStrip_ne_empty {s : String} {c : Char}
    (hc : isPySpace c = false) (hm : c ∈ s.toList) : pyStrip s ≠ "" := by
  intro h
  exact stripChars_ne_nil hc hm
    (congrArg String.data h : stripChars s.toList = [])

set_option maxRecDepth 16384 in
/-- The no-activity text summary is never the empty string. -/
theorem noActivityText_ne_empty (now : String) : noActivityText now ≠ "" := by
  apply pyStrip_ne_empty (c := 'E') (by decide)
  show 'E' ∈ (noActivityTextHead ++ now ++ noActivityTextTail).data
  rw [String.data_append, String.data_append]
  exact List.mem_append.mpr (Or.inl (List.mem_append.mpr (Or.inl (by decide))))

set_option maxRecDepth 65536 in
/-- The no-activity HTML summary is never the empty string. -/
theorem noActivityHtml_ne_empty (now : String) : noActivityHtml now ≠ "" := by
  apply pyStrip_ne_empty (c := '<') (by decide)
  show '<' ∈ (noActivityHtmlHead ++ now ++ noActivityHtmlTail).data
  rw [String.data_append, String.data_append]
  refine List.mem_append.mpr (Or.inl (List.mem_append.mpr (Or.inl ?_)))
  show '<' ∈ noActivityHtmlHead.data
  decide

/-- C8: report generation with an empty event buffer is idempotent — it
yields the well-formed (non-empty) no-activity HTML and text summaries,
leaves the buffer empty (read-and-clear), and an immediate second flush
produces exactly the same no-activity summary with no per-event
content. -/
theorem reporter_empty_flush_idempotent (now : String) :
    generate_report [] now = ([], noActivityHtml now, noActivityText now) ∧
    noActivityHtml now ≠ "" ∧
    noActivityText now ≠ "" ∧
    generate_report (generate_report [] now).1 now = generate_report [] now :=
  ⟨rfl, noActivityHtml_ne_empty now, noActivityText_ne_empty now, rfl⟩

end EmailAgent
